import Mathlib

/-!
Verification of the SIL lowered-type handle (`include/swift/SIL/SILType.h`).

A `SILType` packs a canonical `Type` pointer together with two flag bits
(`IsAddressFlag`, `IsLoadableFlag`) into one machine word, by way of
`llvm::PointerIntPair<Type, 2>`.  `swift::Type` advertises three free low
bits (`TypeAlignInBits = 3`, `TypeBase` allocations are 8-byte aligned), so
the pair stores the two flag bits at word bits 1..2 (`IntShift = 1`,
`IntMask = 3`, `PtrBitMask = ~7`), leaving bit 0 spare
(`PointerLikeTypeTraits<SILType>::NumLowBitsAvailable = 1`).

The embedding models machine words as `Nat` with explicit `% 2 ^ 64`
truncation where C++ unsigned arithmetic wraps, pointers as their numeric
addresses (null = 0, real `TypeBase` allocations are 8-aligned and fit in a
word), and each C++ `assert` as an `Option` guard: `none` is the aborted
computation.
-/

/-- `PointerIntPair<Type, 2>::PtrBitMask` for a 64-bit word:
`~(uintptr_t)((1 << NumLowBitsAvailable) - 1)` with `NumLowBitsAvailable = 3`. -/
def ptrBitMask : Nat := 2 ^ 64 - 8

/-- The packed word of `llvm::PointerIntPair<Type, 2>`: field `Value` is the
single `intptr_t` (as an unsigned 64-bit word). -/
structure PointerIntPair where
  Value : Nat
deriving DecidableEq

/-- `PointerIntPair(PointerTy Ptr, IntType Int)`, i.e. `setPointerAndInt`:
`Value = PtrVal | (Int << IntShift)` with `IntShift = 1`.  LLVM asserts that
`PtrVal` is 8-aligned and that `Int` fits in 2 bits; every call site in
`SILType.h` passes an 8-aligned word-sized pointer and an integer `< 4`, so
the assertions are vacuous there and the constructor is modelled total. -/
def PointerIntPair.ofPtrInt (ptr int : Nat) : PointerIntPair :=
  ⟨ptr ||| (int <<< 1)⟩

/-- `getPointer()`: the address recovered from `Value & PtrBitMask`. -/
def PointerIntPair.getPointer (v : PointerIntPair) : Nat :=
  v.Value &&& ptrBitMask

/-- `getInt()`: `(Value >> IntShift) & IntMask` with `IntShift = 1`, `IntMask = 3`. -/
def PointerIntPair.getInt (v : PointerIntPair) : Nat :=
  (v.Value >>> 1) &&& 3

/-- `getOpaqueValue()`: the raw packed word. -/
def PointerIntPair.getOpaqueValue (v : PointerIntPair) : Nat :=
  v.Value

/-- `getFromOpaqueValue(void *V)`: rewrap a previously exported word. -/
def PointerIntPair.getFromOpaqueValue (w : Nat) : PointerIntPair :=
  ⟨w⟩

/-- A canonical Swift type reference (`CanType`): the address of the uniqued
`TypeBase` allocation (0 = null), together with the one property of the
pointee that `SILType.h` queries, `ty->is<LValueType>()`.  Real registered
types live at 8-aligned, word-sized, nonzero addresses. -/
structure CanType where
  ptr : Nat
  isLValue : Bool
deriving DecidableEq

/-- `SILType`: the handle is exactly its packed `PointerIntPair<Type, 2>`. -/
structure SILType where
  value : PointerIntPair
deriving DecidableEq

/-- `IsAddressFlag = 1 << 0`. -/
def SILType.IsAddressFlag : Nat := 1

/-- `IsLoadableFlag = 1 << 1`. -/
def SILType.IsLoadableFlag : Nat := 2

/-- `SILType() = default`: the default-constructed `PointerIntPair` has `Value = 0`. -/
def SILType.mkDefault : SILType :=
  ⟨⟨0⟩⟩

/-- The gated constructor `SILType(CanType ty, bool address, bool loadable)`,
reached through `SILType::getPreLoweredType`.  Its body is
`value(ty.getPointer(), (address << 0) | (loadable << 1))` guarded by two
assertions, modelled in source order:
`assert(address || loadable)` and `assert(!(ty && ty->is<LValueType>()))`.
`none` models the fired assertion. -/
def SILType.getPreLoweredType (ty : CanType) (address loadable : Bool) :
    Option SILType :=
  if !(address || loadable) then none
  else if ty.ptr != 0 && ty.isLValue then none
  else some ⟨PointerIntPair.ofPtrInt ty.ptr
    ((address.toNat <<< 0) ||| (loadable.toNat <<< 1))⟩

/-- `isNull()`: `value.getPointer().isNull()`, i.e. the recovered address is 0. -/
def SILType.isNull (t : SILType) : Bool :=
  t.value.getPointer == 0

/-- `operator==`: `value == T.value`, and `PointerIntPair::operator==` compares
the raw packed words. -/
def SILType.beq (t T : SILType) : Bool :=
  t.value.Value == T.value.Value

/-- `getAddressType()`: `SILType(value.getPointer(), value.getInt() | IsAddressFlag)`. -/
def SILType.getAddressType (t : SILType) : SILType :=
  ⟨PointerIntPair.ofPtrInt t.value.getPointer
    (t.value.getInt ||| SILType.IsAddressFlag)⟩

/-- `getObjectType()`: guarded by
`assert((value.getInt() | IsLoadableFlag) && "dereferencing an address-only address")`
— note the bitwise `|`, exactly as in the source — then
`SILType(value.getPointer(), value.getInt() & ~IsAddressFlag)`; `~IsAddressFlag`
on a 32-bit `unsigned` is `2 ^ 32 - 2`. -/
def SILType.getObjectType (t : SILType) : Option SILType :=
  if (t.value.getInt ||| SILType.IsLoadableFlag) = 0 then none
  else some ⟨PointerIntPair.ofPtrInt t.value.getPointer
    (t.value.getInt &&& (2 ^ 32 - 2))⟩

/-- `getSwiftRValueType()`: `CanType(value.getPointer())` — the underlying
canonical type reference, identified by its address. -/
def SILType.getSwiftRValueType (t : SILType) : Nat :=
  t.value.getPointer

/-- `isAddress()`: `value.getInt() & IsAddressFlag`, converted to `bool`. -/
def SILType.isAddress (t : SILType) : Bool :=
  t.value.getInt &&& SILType.IsAddressFlag != 0

/-- `isLoadable()`: `value.getInt() & IsLoadableFlag`, converted to `bool`. -/
def SILType.isLoadable (t : SILType) : Bool :=
  t.value.getInt &&& SILType.IsLoadableFlag != 0

/-- `isAddressOnly()`: `!isLoadable()`. -/
def SILType.isAddressOnly (t : SILType) : Bool :=
  !t.isLoadable

/-- `getOpaqueValue()`: `value.getOpaqueValue()`. -/
def SILType.getOpaqueValue (t : SILType) : Nat :=
  t.value.getOpaqueValue

/-- `getFromOpaqueValue(void *P)`: `SILType(ValueType::getFromOpaqueValue(P))`. -/
def SILType.getFromOpaqueValue (w : Nat) : SILType :=
  ⟨PointerIntPair.getFromOpaqueValue w⟩

/-- A representable handle word: word-sized, with the spare low bit (bit 0)
clear.  Every handle built by the constructors of `SILType.h` from an
8-aligned word-sized `Type` pointer satisfies this, as do both `DenseMapInfo`
sentinels. -/
def SILType.WellFormed (t : SILType) : Prop :=
  t.value.Value < 2 ^ 64 ∧ t.value.Value % 2 = 0

instance (t : SILType) : Decidable t.WellFormed := by
  unfold SILType.WellFormed
  infer_instance

/-- `DenseMapInfo<void*>::getEmptyKey()` (LLVM): `(uintptr_t)-1` shifted left
by `PointerLikeTypeTraits<void*>::NumLowBitsAvailable = 2`, wrapping at 64
bits: the reserved word `2 ^ 64 - 4`. -/
def PointerMapInfo.getEmptyKey : Nat :=
  ((2 ^ 64 - 1) <<< 2) % 2 ^ 64

/-- `DenseMapInfo<void*>::getTombstoneKey()` (LLVM): `(uintptr_t)-2 << 2`,
wrapping at 64 bits: the reserved word `2 ^ 64 - 8`. -/
def PointerMapInfo.getTombstoneKey : Nat :=
  ((2 ^ 64 - 2) <<< 2) % 2 ^ 64

/-- `DenseMapInfo<swift::SILType>::getEmptyKey()`:
`SILType::getFromOpaqueValue(PointerMapInfo::getEmptyKey())`. -/
def DenseMapInfo.getEmptyKey : SILType :=
  SILType.getFromOpaqueValue PointerMapInfo.getEmptyKey

/-- `DenseMapInfo<swift::SILType>::getTombstoneKey()`:
`SILType::getFromOpaqueValue(PointerMapInfo::getTombstoneKey())`. -/
def DenseMapInfo.getTombstoneKey : SILType :=
  SILType.getFromOpaqueValue PointerMapInfo.getTombstoneKey

/-- `DenseMapInfo<swift::SILType>::isEqual(LHS, RHS)`: `LHS == RHS`. -/
def DenseMapInfo.isEqual (lhs rhs : SILType) : Bool :=
  SILType.beq lhs rhs

/-! ### Arithmetic characterization of the packed layout -/

theorem testBit_ptrBitMask (i : Nat) :
    ptrBitMask.testBit i = (decide (3 ≤ i) && decide (i < 64)) := by
  have h : ptrBitMask = (2 ^ 61 - 1) <<< 3 := by norm_num [ptrBitMask, Nat.shiftLeft_eq]
  rw [h, Nat.testBit_shiftLeft, Nat.testBit_two_pow_sub_one]
  by_cases h3 : 3 ≤ i
  · simp only [decide_eq_true h3, Bool.true_and]
    exact decide_eq_decide.mpr (by omega)
  · simp only [decide_eq_false h3, Bool.false_and]

theorem land_ptrBitMask (w : Nat) : w &&& ptrBitMask = 8 * (w % 2 ^ 64 / 8) := by
  apply Nat.eq_of_testBit_eq
  intro i
  rw [Nat.testBit_and, testBit_ptrBitMask]
  have h8 : (8 : Nat) * (w % 2 ^ 64 / 8) = 2 ^ 3 * (w % 2 ^ 64 / 8) := by norm_num
  rw [h8, Nat.testBit_mul_pow_two]
  by_cases h3 : 3 ≤ i
  · by_cases h64 : i < 64
    · simp only [decide_eq_true h3, decide_eq_true h64, Bool.and_true, Bool.true_and]
      have hrw : w % 2 ^ 64 / 8 = (w % 2 ^ 64) >>> 3 := by
        rw [Nat.shiftRight_eq_div_pow]
      rw [hrw, Nat.testBit_shiftRight, Nat.testBit_mod_two_pow]
      have h3i : 3 + (i - 3) = i := by omega
      rw [h3i, decide_eq_true h64, Bool.true_and]
    · simp only [decide_eq_true h3, decide_eq_false h64, Bool.and_false, Bool.true_and]
      have hb : w % 2 ^ 64 / 8 < 2 ^ (i - 3) := by
        have hx : w % 2 ^ 64 / 8 < 2 ^ 61 := by omega
        have h2 : (2 : Nat) ^ 61 ≤ 2 ^ (i - 3) := Nat.pow_le_pow_right (by omega) (by omega)
        omega
      rw [Nat.testBit_lt_two_pow hb]
  · simp only [decide_eq_false h3, Bool.false_and, Bool.and_false]

/-- `getPointer` in arithmetic form: the word truncated to 64 bits with its
three low bits cleared. -/
theorem PointerIntPair.getPointer_eq (v : PointerIntPair) :
    v.getPointer = 8 * (v.Value % 2 ^ 64 / 8) := by
  rw [PointerIntPair.getPointer, land_ptrBitMask]

/-- `getInt` in arithmetic form: bits 1..2 of the word. -/
theorem PointerIntPair.getInt_eq (v : PointerIntPair) :
    v.getInt = v.Value / 2 % 4 := by
  rw [PointerIntPair.getInt, Nat.shiftRight_eq_div_pow]
  have h3 : (3 : Nat) = 2 ^ 2 - 1 := by norm_num
  rw [h3, Nat.and_pow_two_sub_one_eq_mod]

theorem PointerIntPair.getInt_lt (v : PointerIntPair) : v.getInt < 4 := by
  rw [PointerIntPair.getInt_eq]
  omega

/-- Packing an 8-aligned pointer with a 2-bit integer is plain addition. -/
theorem PointerIntPair.ofPtrInt_Value (p f : Nat) (hp : 8 ∣ p) (hf : f < 4) :
    (PointerIntPair.ofPtrInt p f).Value = p + 2 * f := by
  obtain ⟨a, rfl⟩ := hp
  show (8 * a) ||| (f <<< 1) = 8 * a + 2 * f
  have hsh : f <<< 1 = 2 * f := by rw [Nat.shiftLeft_eq]; ring
  rw [hsh]
  have h8 : (8 : Nat) * a = 2 ^ 3 * a := by norm_num
  rw [h8, ← Nat.mul_add_lt_is_or (by omega) a]

/-- Structure-level form of `ofPtrInt_Value`. -/
theorem PointerIntPair.ofPtrInt_eq (p f : Nat) (hp : 8 ∣ p) (hf : f < 4) :
    PointerIntPair.ofPtrInt p f = ⟨p + 2 * f⟩ :=
  congrArg PointerIntPair.mk (PointerIntPair.ofPtrInt_Value p f hp hf)

theorem land_two_eq (x : Nat) : x &&& 2 = 2 * (x / 2 % 2) := by
  have h1 : (x &&& 2) / 2 = x / 2 % 2 := by
    have h := Nat.and_div_two (a := x) (b := 2)
    simpa [Nat.and_one_is_mod] using h
  have h2 : (x &&& 2) % 2 = 0 := by
    rcases Nat.mod_two_eq_zero_or_one (x &&& 2) with h | h
    · exact h
    · exfalso
      have := Nat.and_mod_two_eq_one.mp h
      omega
  omega

theorem lor_one_lt4 (x : Nat) (hx : x < 4) : x ||| 1 = x / 2 * 2 + 1 := by
  interval_cases x <;> decide

theorem lor_two_ne_zero (x : Nat) : x ||| 2 ≠ 0 := by
  intro h
  have h2 : (x ||| 2).testBit 1 = (x.testBit 1 || Nat.testBit 2 1) := Nat.testBit_or x 2 1
  rw [h] at h2
  simp [show Nat.testBit 2 1 = true from by decide] at h2

theorem land_objmask_lt4 (x : Nat) (hx : x < 4) : x &&& (2 ^ 32 - 2) = x / 2 * 2 := by
  interval_cases x <;> decide

/-! ### Arithmetic forms of the SILType operations -/

theorem SILType.getPointer_dvd (t : SILType) : 8 ∣ t.value.getPointer := by
  rw [PointerIntPair.getPointer_eq]
  omega

theorem SILType.getPointer_lt (t : SILType) : t.value.getPointer < 2 ^ 64 := by
  rw [PointerIntPair.getPointer_eq]
  omega

/-- The word of `getAddressType`: same pointer bits, flag bits forced to
contain `IsAddressFlag`. -/
theorem SILType.getAddressType_Value (t : SILType) :
    t.getAddressType.value.Value =
      8 * (t.value.Value % 2 ^ 64 / 8) + 2 * (t.value.Value / 2 % 4 / 2 * 2 + 1) := by
  have hi := PointerIntPair.getInt_lt t.value
  rw [SILType.getAddressType, SILType.IsAddressFlag]
  rw [PointerIntPair.ofPtrInt_Value _ _ (SILType.getPointer_dvd t)
      (by rw [lor_one_lt4 _ hi]; omega)]
  rw [lor_one_lt4 _ hi, PointerIntPair.getPointer_eq, PointerIntPair.getInt_eq]

/-- The `getObjectType` assert can never fire (`x | 2 ≠ 0`), and the word of
the result has the same pointer bits with `IsAddressFlag` cleared. -/
theorem SILType.getObjectType_eq (t : SILType) :
    t.getObjectType = some ⟨⟨8 * (t.value.Value % 2 ^ 64 / 8) +
      2 * (t.value.Value / 2 % 4 / 2 * 2)⟩⟩ := by
  have hi := PointerIntPair.getInt_lt t.value
  rw [SILType.getObjectType, SILType.IsLoadableFlag,
    if_neg (lor_two_ne_zero t.value.getInt)]
  rw [PointerIntPair.ofPtrInt_eq _ _ (SILType.getPointer_dvd t)
      (by rw [land_objmask_lt4 _ hi]; omega)]
  rw [land_objmask_lt4 _ hi, PointerIntPair.getPointer_eq, PointerIntPair.getInt_eq]

theorem SILType.isNull_eq (t : SILType) :
    t.isNull = decide (t.value.Value % 2 ^ 64 / 8 = 0) := by
  rw [Bool.eq_iff_iff]
  simp only [SILType.isNull, beq_iff_eq, decide_eq_true_eq, PointerIntPair.getPointer_eq]
  omega

theorem SILType.isAddress_eq (t : SILType) :
    t.isAddress = decide (t.value.Value / 2 % 2 = 1) := by
  rw [Bool.eq_iff_iff]
  simp only [SILType.isAddress, SILType.IsAddressFlag, bne_iff_ne, ne_eq,
    decide_eq_true_eq, Nat.and_one_is_mod, PointerIntPair.getInt_eq]
  omega

theorem SILType.isLoadable_eq (t : SILType) :
    t.isLoadable = decide (t.value.Value / 4 % 2 = 1) := by
  rw [Bool.eq_iff_iff]
  simp only [SILType.isLoadable, SILType.IsLoadableFlag, bne_iff_ne, ne_eq,
    decide_eq_true_eq, land_two_eq, PointerIntPair.getInt_eq]
  omega

theorem SILType.beq_iff (t T : SILType) : (SILType.beq t T = true) ↔ t = T := by
  obtain ⟨⟨v⟩⟩ := t
  obtain ⟨⟨V⟩⟩ := T
  simp [SILType.beq]

/-- Structural equality of handles follows from equality of the packed words. -/
theorem SILType.eq_of_Value_eq {t T : SILType} (h : t.value.Value = T.value.Value) :
    t = T := by
  obtain ⟨⟨w⟩⟩ := t
  obtain ⟨⟨W⟩⟩ := T
  cases h
  rfl

/-! ### The claims -/

/-- C1: the spec claims that invoking `getObjectType()` on an address-only
handle (`isAddress = true`, `isLoadable = false`) fails its precondition
check and aborts.  The code disagrees: the assertion condition is
`value.getInt() | IsLoadableFlag` — a bitwise OR with the nonzero constant
2 — which is always nonzero, so the assertion can never fire.  On every
handle, in particular the address-only handle over the type at address 8
(packed word 10), `getObjectType()` returns a handle instead of aborting. -/
theorem getObjectType_addressOnly_no_abort :
    (∀ t : SILType, ∃ g : SILType, t.getObjectType = some g) ∧
    SILType.getPreLoweredType ⟨8, false⟩ true false = some ⟨⟨10⟩⟩ ∧
    (⟨⟨10⟩⟩ : SILType).isAddress = true ∧
    (⟨⟨10⟩⟩ : SILType).isLoadable = false ∧
    (⟨⟨10⟩⟩ : SILType).getObjectType = some ⟨⟨8⟩⟩ := by
  refine ⟨?_, by decide, by decide, by decide, by decide⟩
  intro t
  exact ⟨_, SILType.getObjectType_eq t⟩

/-- C2: the spec claims every non-null handle reachable through the gated
constructor and the conversions satisfies `isAddress() || isLoadable()`.
The constructor does enforce this (both flags false is rejected), but
because the `getObjectType()` assertion never fires (see C1), applying
`getObjectType()` to the address-only handle with packed word 10 yields the
non-null handle with packed word 8 whose two flags are both false — the
state the invariant calls unrepresentable is reachable. -/
theorem reachable_handle_invariant_breach :
    (∀ ty : CanType, SILType.getPreLoweredType ty false false = none) ∧
    SILType.getPreLoweredType ⟨8, false⟩ true false = some ⟨⟨10⟩⟩ ∧
    (⟨⟨10⟩⟩ : SILType).getObjectType = some ⟨⟨8⟩⟩ ∧
    (⟨⟨8⟩⟩ : SILType).isNull = false ∧
    ((⟨⟨8⟩⟩ : SILType).isAddress || (⟨⟨8⟩⟩ : SILType).isLoadable) = false := by
  refine ⟨?_, by decide, by decide, by decide, by decide⟩
  intro ty
  rfl

/-- C4 (counterexample): the claim says any two handles with `isNull() = true`
compare equal.  False: the default-constructed null handle (word 0) and the
result of `getAddressType()` on it (word 2, null pointer with the address
bit set) are both null but compare unequal under `operator==`. -/
theorem null_handles_not_all_equal :
    SILType.mkDefault.isNull = true ∧
    SILType.mkDefault.getAddressType.isNull = true ∧
    SILType.beq SILType.mkDefault SILType.mkDefault.getAddressType = false := by
  decide

/-- C4 (amended): two well-formed null handles compare equal under
`operator==` exactly when they carry the same flag bits (so the
default-constructed null handle equals itself), and a null handle compares
unequal to every non-null handle. -/
theorem null_handle_equality_amended :
    (∀ h1 h2 : SILType, h1.WellFormed → h2.WellFormed →
      h1.isNull = true → h2.isNull = true →
      (SILType.beq h1 h2 = true ↔ h1.value.getInt = h2.value.getInt)) ∧
    (∀ h1 h2 : SILType, h1.isNull = true → h2.isNull = false →
      SILType.beq h1 h2 = false) := by
  constructor
  · rintro ⟨⟨w1⟩⟩ ⟨⟨w2⟩⟩ hwf1 hwf2 hn1 hn2
    simp only [SILType.WellFormed] at hwf1 hwf2
    obtain ⟨hlt1, hev1⟩ := hwf1
    obtain ⟨hlt2, hev2⟩ := hwf2
    simp only [SILType.isNull_eq, decide_eq_true_eq] at hn1 hn2
    simp only [SILType.beq, beq_iff_eq, PointerIntPair.getInt_eq]
    constructor
    · intro h
      omega
    · intro h
      omega
  · rintro ⟨⟨w1⟩⟩ ⟨⟨w2⟩⟩ hn1 hn2
    simp only [SILType.isNull_eq, decide_eq_true_eq, decide_eq_false_iff_not] at hn1 hn2
    simp only [SILType.beq, beq_eq_false_iff_ne, ne_eq]
    intro h
    omega

/-- Witness for the amended C4 at concrete inputs: the null handle with the
address bit set (word 2) equals itself, and the default null handle is
unequal to the non-null handle over the type at address 8. -/
theorem null_handle_equality_amended_witness :
    (SILType.beq ⟨⟨2⟩⟩ ⟨⟨2⟩⟩ = true ↔
      (⟨⟨2⟩⟩ : SILType).value.getInt = (⟨⟨2⟩⟩ : SILType).value.getInt) ∧
    SILType.beq ⟨⟨0⟩⟩ ⟨⟨8⟩⟩ = false :=
  ⟨null_handle_equality_amended.1 ⟨⟨2⟩⟩ ⟨⟨2⟩⟩ (by decide) (by decide) (by decide) (by decide),
   null_handle_equality_amended.2 ⟨⟨0⟩⟩ ⟨⟨8⟩⟩ (by decide) (by decide)⟩

/-- C5: exporting any handle as an opaque machine word and reconstructing it
round-trips exactly, preserving the underlying type reference and both flag
bits. -/
theorem opaqueValue_roundtrip (h : SILType) :
    SILType.getFromOpaqueValue h.getOpaqueValue = h ∧
    (SILType.getFromOpaqueValue h.getOpaqueValue).getSwiftRValueType =
      h.getSwiftRValueType ∧
    (SILType.getFromOpaqueValue h.getOpaqueValue).isAddress = h.isAddress ∧
    (SILType.getFromOpaqueValue h.getOpaqueValue).isLoadable = h.isLoadable := by
  obtain ⟨⟨w⟩⟩ := h
  exact ⟨rfl, rfl, rfl, rfl⟩

/-- C9: constructing a handle over a non-null type that is still an
`LValueType` fails the constructor's precondition for every flag
combination: one of the two assertions fires. -/
theorem getPreLoweredType_lvalue_rejected (ty : CanType) (address loadable : Bool)
    (hptr : ty.ptr ≠ 0) (hlv : ty.isLValue = true) :
    SILType.getPreLoweredType ty address loadable = none := by
  cases address <;> cases loadable <;>
    simp [SILType.getPreLoweredType, hlv, hptr]

/-- Witness for C9: the constructor rejects the `LValueType` at address 8
even with both flags set. -/
theorem getPreLoweredType_lvalue_rejected_witness :
    (8 : Nat) ≠ 0 ∧ (CanType.mk 8 true).isLValue = true ∧
    SILType.getPreLoweredType ⟨8, true⟩ true true = none :=
  ⟨by decide, by decide, getPreLoweredType_lvalue_rejected ⟨8, true⟩ true true
    (by decide) (by decide)⟩

/-- C3: for every well-formed loadable, non-address handle,
`getAddressType().getObjectType()` returns the original handle. -/
theorem addressType_objectType_roundtrip (h : SILType) (hwf : h.WellFormed)
    (ha : h.isAddress = false) (hl : h.isLoadable = true) :
    h.getAddressType.getObjectType = some h := by
  obtain ⟨⟨w⟩⟩ := h
  simp only [SILType.WellFormed] at hwf
  obtain ⟨hlt, hev⟩ := hwf
  simp only [SILType.isAddress_eq, decide_eq_false_iff_not] at ha
  simp only [SILType.isLoadable_eq, decide_eq_true_eq] at hl
  rw [SILType.getObjectType_eq, SILType.getAddressType_Value]
  simp only [Option.some.injEq, SILType.mk.injEq, PointerIntPair.mk.injEq]
  omega

/-- Witness for C3: the loadable non-address handle over the type at address
8 (packed word 12) survives the address/object round trip. -/
theorem addressType_objectType_roundtrip_witness :
    (⟨⟨12⟩⟩ : SILType).getAddressType.getObjectType = some ⟨⟨12⟩⟩ :=
  addressType_objectType_roundtrip ⟨⟨12⟩⟩ (by decide) (by decide) (by decide)

/-- Inversion of the gated constructor: a successfully constructed handle
over an 8-aligned pointer has packed word `ptr + 2 * flags` with a nonzero
2-bit flag field. -/
theorem getPreLoweredType_some_Value (ty : CanType) (a l : Bool) (h : SILType)
    (hdvd : 8 ∣ ty.ptr)
    (hs : SILType.getPreLoweredType ty a l = some h) :
    h.value.Value = ty.ptr + 2 * (a.toNat + 2 * l.toNat) ∧
    1 ≤ a.toNat + 2 * l.toNat ∧ a.toNat + 2 * l.toNat ≤ 3 := by
  rw [SILType.getPreLoweredType] at hs
  by_cases hc1 : (!(a || l)) = true
  · rw [if_pos hc1] at hs
    exact absurd hs (by simp)
  · rw [if_neg hc1] at hs
    by_cases hc2 : (ty.ptr != 0 && ty.isLValue) = true
    · rw [if_pos hc2] at hs
      exact absurd hs (by simp)
    · rw [if_neg hc2] at hs
      injection hs with hs
      subst hs
      have hfl : ((a.toNat <<< 0) ||| (l.toNat <<< 1)) = a.toNat + 2 * l.toNat := by
        cases a <;> cases l <;> decide
      refine ⟨?_, ?_, ?_⟩
      · show (PointerIntPair.ofPtrInt ty.ptr ((a.toNat <<< 0) ||| (l.toNat <<< 1))).Value = _
        rw [hfl, PointerIntPair.ofPtrInt_Value _ _ hdvd
          (by cases a <;> cases l <;> decide)]
      · cases a <;> cases l <;> simp_all
      · cases a <;> cases l <;> decide

/-- C6: the two `DenseMapInfo` sentinel handles are distinct, and — assuming
the registry never allocates a real type at either reserved sentinel
reference value — no handle produced by the gated constructor over a real
registered type (8-aligned, word-sized, nonzero address) equals either
sentinel. -/
theorem denseMap_sentinels_disjoint :
    SILType.beq DenseMapInfo.getEmptyKey DenseMapInfo.getTombstoneKey = false ∧
    ∀ (ty : CanType) (address loadable : Bool) (h : SILType),
      8 ∣ ty.ptr → ty.ptr < 2 ^ 64 → ty.ptr ≠ 0 →
      ty.ptr ≠ PointerMapInfo.getEmptyKey →
      ty.ptr ≠ PointerMapInfo.getTombstoneKey →
      SILType.getPreLoweredType ty address loadable = some h →
      SILType.beq h DenseMapInfo.getEmptyKey = false ∧
      SILType.beq h DenseMapInfo.getTombstoneKey = false := by
  constructor
  · decide
  · intro ty a l h hdvd hlt hne0 hneE hneT hs
    have htomb : PointerMapInfo.getTombstoneKey = 2 ^ 64 - 8 := by decide
    rw [htomb] at hneT
    have hE : DenseMapInfo.getEmptyKey = ⟨⟨2 ^ 64 - 4⟩⟩ := by decide
    have hT : DenseMapInfo.getTombstoneKey = ⟨⟨2 ^ 64 - 8⟩⟩ := by decide
    obtain ⟨hV, hf1, hf2⟩ := getPreLoweredType_some_Value ty a l h hdvd hs
    rw [hE, hT]
    constructor
    · show (h.value.Value == (2 ^ 64 - 4 : Nat)) = false
      simp only [beq_eq_false_iff_ne, ne_eq]
      intro hx
      omega
    · show (h.value.Value == (2 ^ 64 - 8 : Nat)) = false
      simp only [beq_eq_false_iff_ne, ne_eq]
      intro hx
      omega

/-- Witness for C6: the loadable handle over the real type at address 8
(packed word 12) differs from both sentinels. -/
theorem denseMap_sentinels_disjoint_witness :
    SILType.beq ⟨⟨12⟩⟩ DenseMapInfo.getEmptyKey = false ∧
    SILType.beq ⟨⟨12⟩⟩ DenseMapInfo.getTombstoneKey = false :=
  denseMap_sentinels_disjoint.2 ⟨8, false⟩ false true ⟨⟨12⟩⟩ (by norm_num)
    (by norm_num) (by norm_num) (by decide) (by decide) (by decide)

/-- C7: on well-formed handles, `operator==` holds exactly when the packed
opaque words are identical, which holds exactly when the two handles agree
componentwise on underlying type reference, `isAddress` and `isLoadable`;
the comparison is nothing but the packed-word comparison. -/
theorem operatorEq_iff_components (h1 h2 : SILType)
    (hwf1 : h1.WellFormed) (hwf2 : h2.WellFormed) :
    (SILType.beq h1 h2 = true ↔ h1.getOpaqueValue = h2.getOpaqueValue) ∧
    (SILType.beq h1 h2 = true ↔
      (h1.getSwiftRValueType = h2.getSwiftRValueType ∧
       h1.isAddress = h2.isAddress ∧ h1.isLoadable = h2.isLoadable)) := by
  obtain ⟨⟨w1⟩⟩ := h1
  obtain ⟨⟨w2⟩⟩ := h2
  simp only [SILType.WellFormed] at hwf1 hwf2
  obtain ⟨hlt1, hev1⟩ := hwf1
  obtain ⟨hlt2, hev2⟩ := hwf2
  constructor
  · simp [SILType.beq, SILType.getOpaqueValue, PointerIntPair.getOpaqueValue]
  · simp only [SILType.beq, beq_iff_eq, SILType.getSwiftRValueType,
      PointerIntPair.getPointer_eq, SILType.isAddress_eq, SILType.isLoadable_eq,
      decide_eq_decide]
    constructor
    · rintro rfl
      exact ⟨rfl, Iff.rfl, Iff.rfl⟩
    · rintro ⟨hp, hA, hL⟩
      omega

/-- Witness for C7 at the concrete loadable handles with packed words 12 and
10 over the same type. -/
theorem operatorEq_iff_components_witness :
    (SILType.beq ⟨⟨12⟩⟩ ⟨⟨10⟩⟩ = true ↔
      (⟨⟨12⟩⟩ : SILType).getOpaqueValue = (⟨⟨10⟩⟩ : SILType).getOpaqueValue) ∧
    (SILType.beq ⟨⟨12⟩⟩ ⟨⟨10⟩⟩ = true ↔
      ((⟨⟨12⟩⟩ : SILType).getSwiftRValueType = (⟨⟨10⟩⟩ : SILType).getSwiftRValueType ∧
       (⟨⟨12⟩⟩ : SILType).isAddress = (⟨⟨10⟩⟩ : SILType).isAddress ∧
       (⟨⟨12⟩⟩ : SILType).isLoadable = (⟨⟨10⟩⟩ : SILType).isLoadable)) :=
  operatorEq_iff_components ⟨⟨12⟩⟩ ⟨⟨10⟩⟩ (by decide) (by decide)

/-- C8: `getAddressType()` is idempotent on every handle, its result has the
address flag set, and it leaves the underlying type reference and the
loadable flag unchanged. -/
theorem getAddressType_idempotent (h : SILType) :
    h.getAddressType.getAddressType = h.getAddressType ∧
    h.getAddressType.isAddress = true ∧
    h.getAddressType.getSwiftRValueType = h.getSwiftRValueType ∧
    h.getAddressType.isLoadable = h.isLoadable := by
  obtain ⟨⟨w⟩⟩ := h
  refine ⟨?_, ?_, ?_, ?_⟩
  · apply SILType.eq_of_Value_eq
    rw [SILType.getAddressType_Value (SILType.getAddressType ⟨⟨w⟩⟩),
      SILType.getAddressType_Value ⟨⟨w⟩⟩]
    omega
  · rw [SILType.isAddress_eq, SILType.getAddressType_Value]
    simp only [decide_eq_true_eq]
    omega
  · rw [SILType.getSwiftRValueType, SILType.getSwiftRValueType,
      PointerIntPair.getPointer_eq, PointerIntPair.getPointer_eq,
      SILType.getAddressType_Value]
    omega
  · rw [SILType.isLoadable_eq, SILType.isLoadable_eq, SILType.getAddressType_Value]
    exact decide_eq_decide.mpr (by omega)

/-- C10: on every handle, including the null one, `getAddressType()` and
`getObjectType()` preserve null-ness and the underlying type reference
returned by `getSwiftRValueType()`: the conversions touch only the flag
bits. -/
theorem conversions_preserve_underlying_type (h : SILType) :
    h.getAddressType.isNull = h.isNull ∧
    h.getAddressType.getSwiftRValueType = h.getSwiftRValueType ∧
    ∃ g : SILType, h.getObjectType = some g ∧
      g.isNull = h.isNull ∧ g.getSwiftRValueType = h.getSwiftRValueType := by
  obtain ⟨⟨w⟩⟩ := h
  refine ⟨?_, ?_, ⟨⟨8 * (w % 2 ^ 64 / 8) + 2 * (w / 2 % 4 / 2 * 2)⟩⟩,
    SILType.getObjectType_eq _, ?_, ?_⟩
  · rw [SILType.isNull_eq, SILType.isNull_eq, SILType.getAddressType_Value]
    dsimp only
    exact decide_eq_decide.mpr (by omega)
  · rw [SILType.getSwiftRValueType, SILType.getSwiftRValueType,
      PointerIntPair.getPointer_eq, PointerIntPair.getPointer_eq,
      SILType.getAddressType_Value]
    dsimp only
    omega
  · rw [SILType.isNull_eq, SILType.isNull_eq]
    dsimp only
    exact decide_eq_decide.mpr (by omega)
  · rw [SILType.getSwiftRValueType, SILType.getSwiftRValueType,
      PointerIntPair.getPointer_eq, PointerIntPair.getPointer_eq]
    dsimp only
    omega
